import Mathlib

/-!
# Verification of the form-validation hook

Shallow embedding of the validation-and-form-state engine of the
`form-validation-hook` repository:

* `src/validation/validationRules.ts` — the rule library (`required`,
  `minLength`, `maxLength`, `min`, `max`, `strongPassword`, …);
* `src/hooks/useFormValidation.ts` — the form controller
  (`validateField`, `validateForm`, `isValid`, `setValue`, `setError`,
  `setTouched`, `resetForm`, `resetField`, `handleBlur`, `handleSubmit`).

JavaScript values stored in a form are modelled by the inductive type
`JSValue` (strings, numbers, booleans, `null`, `undefined`).  Numbers are
modelled as integers: every numeric value appearing in the repository and
in the claims under verification is integral, and the numeric coercions
exercised here (`Number('')`, `Number` of a decimal-free string, of a
boolean, of `null`/`undefined`) are captured exactly on that fragment.
JavaScript objects (`values`, `errors`, `touched` and the rule
configuration) are modelled as association lists keyed by field name,
with the first binding for a key authoritative; an entry that is present
with value `null` (as produced by `validateForm` or `resetField`) is
distinguished from an absent entry (as produced by `delete`), exactly as
in JavaScript.
-/

namespace FormValidation

/-- A JavaScript value as stored in the form's value map. -/
inductive JSValue : Type
  | str (s : String)
  | num (n : Int)
  | bool (b : Bool)
  | null
  | undefined
deriving DecidableEq, Repr

/-- JavaScript truthiness of a `JSValue` (`NaN` does not arise on the
integer fragment we model). -/
def JSValue.truthy : JSValue → Bool
  | .str s => s ≠ ""
  | .num n => n ≠ 0
  | .bool b => b
  | .null => false
  | .undefined => false

/-- The JavaScript string coercion `String(v)`. -/
def JSValue.toJSString : JSValue → String
  | .str s => s
  | .num n => toString n
  | .bool b => if b then "true" else "false"
  | .null => "null"
  | .undefined => "undefined"

/-- The idiom `String(value || '')` used throughout the rule library:
a falsy value is replaced by `''` before string coercion. -/
def stringOrEmpty (v : JSValue) : String :=
  if v.truthy then v.toJSString else ""

/-- A whitespace character as trimmed by the JavaScript `Number`
coercion. -/
def isSpaceChar (c : Char) : Bool :=
  c = ' ' ∨ c = '\t' ∨ c = '\n' ∨ c = '\r'

/-- Strip leading and trailing whitespace from a character list. -/
def trimChars (l : List Char) : List Char :=
  ((l.dropWhile isSpaceChar).reverse.dropWhile isSpaceChar).reverse

/-- Accumulate a decimal digit list into a natural number. -/
def digitsToNat : List Char → Nat → Nat
  | [], acc => acc
  | c :: rest, acc => digitsToNat rest (10 * acc + (c.toNat - 48))

/-- Parse a non-empty all-digit character list; anything else is `NaN`. -/
def parseDigits (l : List Char) : Option Nat :=
  if l ≠ [] ∧ l.all (fun c => '0' ≤ c ∧ c ≤ '9') then some (digitsToNat l 0)
  else none

/-- JavaScript numeric coercion of a string (the integer fragment):
whitespace-only strings coerce to `0`, an optional sign followed by
decimal digits parses as an integer, anything else is `NaN` (`none`). -/
def parseJSNumber (s : String) : Option Int :=
  match trimChars s.data with
  | [] => some 0
  | '-' :: rest => (parseDigits rest).map (fun n => -(n : Int))
  | '+' :: rest => (parseDigits rest).map (fun n => (n : Int))
  | l => (parseDigits l).map (fun n => (n : Int))

/-- The JavaScript coercion `Number(v)`; `none` stands for `NaN`. -/
def JSValue.toNumber : JSValue → Option Int
  | .str s => parseJSNumber s
  | .num n => some n
  | .bool b => some (if b then 1 else 0)
  | .null => some 0
  | .undefined => none

/-! ## JavaScript objects as association lists -/

/-- `m[k]` on a JavaScript object: `none` models `undefined` (key absent). -/
def lookupMap {α : Type} : List (String × α) → String → Option α
  | [], _ => none
  | p :: rest, k => if p.1 = k then some p.2 else lookupMap rest k

/-- `{ ...m, [k]: v }`: replace the first binding of `k` in place, or
append a fresh binding. -/
def setMap {α : Type} : List (String × α) → String → α → List (String × α)
  | [], k, v => [(k, v)]
  | p :: rest, k, v => if p.1 = k then (k, v) :: rest else p :: setMap rest k v

/-- `delete m[k]`. -/
def removeMap {α : Type} : List (String × α) → String → List (String × α)
  | [], _ => []
  | p :: rest, k => if p.1 = k then removeMap rest k else p :: removeMap rest k

/-- The form's value map; reading an absent field yields `undefined`. -/
abbrev ValueMap := List (String × JSValue)

/-- `values[name]`, with `undefined` for an absent key. -/
def getValue (m : ValueMap) (k : String) : JSValue :=
  (lookupMap m k).getD .undefined

/-- The error map: a field may be bound to a message, bound to `null`,
or absent. -/
abbrev ErrorMap := List (String × Option String)

/-- Truthiness of `errors[name]`: only a binding to a non-empty string
counts (absent, `null` and `''` are all falsy). -/
def errTruthy : Option (Option String) → Bool
  | some (some s) => s ≠ ""
  | _ => false

/-- Truthiness of a `string | null` rule result. -/
def strTruthy : Option String → Bool
  | some s => s ≠ ""
  | none => false

/-! ## The rule library (`src/validation/validationRules.ts`) -/

/-- `type ValidationRule = (value, allValues) => string | null`. -/
def ValidationRule : Type := JSValue → ValueMap → Option String

/-- The JavaScript fallback `message || dflt` used by the rules with a
default error message: an absent or empty-string (falsy) custom message
falls back to the default. -/
def messageOr (message : Option String) (dflt : String) : String :=
  match message with
  | some m => if m ≠ "" then m else dflt
  | none => dflt

/-- `required(message?)`: fails on `null`, `undefined` and `''`. -/
def required (message : String := "This field is required") : ValidationRule :=
  fun value _ =>
    if value = .null ∨ value = .undefined ∨ value = .str "" then some message
    else none

/-- `minLength(min, message?)`. -/
def minLength (min : Int) (message : Option String := none) : ValidationRule :=
  fun value _ =>
    let stringValue := stringOrEmpty value
    if (stringValue.length : Int) < min then
      some (messageOr message
        ("Must be at least " ++ toString min ++ " characters"))
    else none

/-- `maxLength(max, message?)`. -/
def maxLength (max : Int) (message : Option String := none) : ValidationRule :=
  fun value _ =>
    let stringValue := stringOrEmpty value
    if (stringValue.length : Int) > max then
      some (messageOr message
        ("Must be at most " ++ toString max ++ " characters"))
    else none

/-- `min(minValue, message?)`: only a non-`NaN` numeric coercion below the
bound fails. -/
def min (minValue : Int) (message : Option String := none) : ValidationRule :=
  fun value _ =>
    match value.toNumber with
    | some numValue =>
        if numValue < minValue then
          some (messageOr message ("Must be at least " ++ toString minValue))
        else none
    | none => none

/-- `max(maxValue, message?)`. -/
def max (maxValue : Int) (message : Option String := none) : ValidationRule :=
  fun value _ =>
    match value.toNumber with
    | some numValue =>
        if numValue > maxValue then
          some (messageOr message ("Must be at most " ++ toString maxValue))
        else none
    | none => none

/-- The character class of `/[!@#$%^&*()_+\-=[\]{};':"\\|,.<>/?]/`. -/
def specialChars : List Char :=
  ['!', '@', '#', '$', '%', '^', '&', '*', '(', ')', '_', '+', '-', '=',
   '[', ']', '{', '}', ';', '\'', ':', '\"', '\\', '|', ',', '.', '<', '>',
   '/', '?']

/-- `stringValue.length >= 8` of `strongPassword`. -/
def hasMinLength (s : String) : Bool := s.length ≥ 8

/-- The regex test `/[A-Z]/.test(stringValue)`. -/
def hasUpperCase (s : String) : Bool :=
  s.data.any (fun c => 'A' ≤ c ∧ c ≤ 'Z')

/-- The regex test `/[a-z]/.test(stringValue)`. -/
def hasLowerCase (s : String) : Bool :=
  s.data.any (fun c => 'a' ≤ c ∧ c ≤ 'z')

/-- The regex test `/\d/.test(stringValue)`. -/
def hasNumber (s : String) : Bool :=
  s.data.any (fun c => '0' ≤ c ∧ c ≤ '9')

/-- The regex test for the special-character class. -/
def hasSpecialChar (s : String) : Bool :=
  s.data.any (fun c => c ∈ specialChars)

/-- `strongPassword(message?)`: empty values pass; otherwise the five
conditions are checked in a fixed order and the first unmet one reports;
when all hold the function returns `message || null`. -/
def strongPassword (message : Option String := none) : ValidationRule :=
  fun value _ =>
    let stringValue := stringOrEmpty value
    if stringValue = "" then none
    else if !hasMinLength stringValue then
      some "Password must be at least 8 characters long"
    else if !hasUpperCase stringValue then
      some "Password must contain at least one uppercase letter"
    else if !hasLowerCase stringValue then
      some "Password must contain at least one lowercase letter"
    else if !hasNumber stringValue then
      some "Password must contain at least one number"
    else if !hasSpecialChar stringValue then
      some "Password must contain at least one special character"
    else
      match message with
      | some m => if m ≠ "" then some m else none
      | none => none

/-! ## The form controller (`src/hooks/useFormValidation.ts`) -/

/-- The construction options of `useFormValidation` (defaults as in the
source: empty maps, both validation toggles on). -/
structure FormConfig : Type where
  initialValues : ValueMap := []
  validationRules : List (String × List ValidationRule) := []
  validateOnChange : Bool := true
  validateOnBlur : Bool := true

/-- The controller's mutable state: `values`, `errors`, `touched`,
`isSubmitted`. -/
structure FormState : Type where
  values : ValueMap
  errors : ErrorMap
  touched : List (String × Bool)
  isSubmitted : Bool

/-- The state of a freshly constructed controller. -/
def initialState (cfg : FormConfig) : FormState :=
  { values := cfg.initialValues, errors := [], touched := [],
    isSubmitted := false }

/-- The rule loop of `validateField`: the first rule whose result is
truthy short-circuits and its result is returned. -/
def runRules : List ValidationRule → JSValue → ValueMap → Option String
  | [], _, _ => none
  | rule :: rest, fieldValue, valuesToUse =>
      match rule fieldValue valuesToUse with
      | some e =>
          if e ≠ "" then some e else runRules rest fieldValue valuesToUse
      | none => runRules rest fieldValue valuesToUse

/-- `validateField(name, currentValues)`: no rules (or an empty rule
list) yields `null`; otherwise the rules run in order against
`valuesToUse`, short-circuiting on the first truthy error. -/
def validateField (cfg : FormConfig) (name : String) (valuesToUse : ValueMap) :
    Option String :=
  match lookupMap cfg.validationRules name with
  | none => none
  | some fieldRules =>
      runRules fieldRules (getValue valuesToUse name) valuesToUse

/-- The error object built by `validateForm`: one entry per ruled field,
bound to that field's `validateField` result (possibly `null`). -/
def validateFormErrors (cfg : FormConfig) (values : ValueMap) : ErrorMap :=
  cfg.validationRules.foldl
    (fun acc p => setMap acc p.1 (validateField cfg p.1 values)) []

/-- `validateForm()`: replaces the whole error map with the freshly
computed one and returns whether no ruled field produced a truthy error. -/
def validateForm (cfg : FormConfig) (s : FormState) : FormState × Bool :=
  ({ s with errors := validateFormErrors cfg s.values },
   cfg.validationRules.all
     (fun p => !strTruthy (validateField cfg p.1 s.values)))

/-- The computed `isValid`: every ruled field's `validateField` against
the current values is falsy. -/
def isValid (cfg : FormConfig) (s : FormState) : Bool :=
  cfg.validationRules.all
    (fun p => !strTruthy (validateField cfg p.1 s.values))

/-- `setValue(name, value)`: write the value; delete the error entry when
it is currently truthy; when validate-on-change is enabled and the field
has a configured rule list, re-validate against the updated snapshot and
record a truthy error. -/
def setValue (cfg : FormConfig) (s : FormState) (name : String)
    (value : JSValue) : FormState :=
  let values1 := setMap s.values name value
  let errors1 :=
    if errTruthy (lookupMap s.errors name) then removeMap s.errors name
    else s.errors
  let errors2 :=
    if cfg.validateOnChange then
      match lookupMap cfg.validationRules name with
      | some _ =>
          let newValues := setMap s.values name value
          match validateField cfg name newValues with
          | some e => if e ≠ "" then setMap errors1 name (some e) else errors1
          | none => errors1
      | none => errors1
    else errors1
  { s with values := values1, errors := errors2 }

/-- `setError(name, error)`: direct low-level override of one error entry. -/
def setError (s : FormState) (name : String) (error : Option String) :
    FormState :=
  { s with errors := setMap s.errors name error }

/-- `setTouched(name, isTouched)`. -/
def setTouched (s : FormState) (name : String) (isTouched : Bool) :
    FormState :=
  { s with touched := setMap s.touched name isTouched }

/-- `resetForm()`: initial values, empty errors and touched, submitted
cleared. -/
def resetForm (cfg : FormConfig) (_s : FormState) : FormState :=
  { values := cfg.initialValues, errors := [], touched := [],
    isSubmitted := false }

/-- `resetField(name)`: the value becomes `initialValues[name] || ''`,
the error entry is bound to `null`, the touched entry to `false`. -/
def resetField (cfg : FormConfig) (s : FormState) (name : String) :
    FormState :=
  let initVal := getValue cfg.initialValues name
  { s with
    values := setMap s.values name
      (if initVal.truthy then initVal else .str ""),
    errors := setMap s.errors name none,
    touched := setMap s.touched name false }

/-- `handleBlur(name)()`: mark touched, then when validate-on-blur is
enabled record the freshly computed error only when it is truthy. -/
def handleBlur (cfg : FormConfig) (s : FormState) (name : String) :
    FormState :=
  let s1 := setTouched s name true
  if cfg.validateOnBlur then
    match validateField cfg name s.values with
    | some e =>
        if e ≠ "" then { s1 with errors := setMap s1.errors name (some e) }
        else s1
    | none => s1
  else s1

/-- The observable outcome of one `handleSubmit` invocation:
whether the event's default was prevented, the post-state, and the value
map passed to the success callback when it was invoked. -/
structure SubmitResult : Type where
  defaultPrevented : Bool
  state : FormState
  submittedValues : Option ValueMap

/-- `handleSubmit(onSubmit)(event)`: prevent default, set the submitted
flag, replace the touched map by one marking every ruled field, run
`validateForm`, and call back with the current values exactly when the
form validated. -/
def handleSubmit (cfg : FormConfig) (s : FormState) : SubmitResult :=
  let s1 := { s with isSubmitted := true }
  let allFieldsTouched :=
    cfg.validationRules.foldl (fun acc p => setMap acc p.1 true) []
  let s2 := { s1 with touched := allFieldsTouched }
  let validated := validateForm cfg s2
  { defaultPrevented := true,
    state := validated.1,
    submittedValues := if validated.2 then some s.values else none }

/-! ## Association-list lemmas -/

theorem lookupMap_setMap_self {α : Type} (m : List (String × α)) (k : String)
    (v : α) : lookupMap (setMap m k v) k = some v := by
  induction m with
  | nil => simp [setMap, lookupMap]
  | cons p rest ih =>
      by_cases h : p.1 = k
      · simp [setMap, h, lookupMap]
      · simp [setMap, h, lookupMap, ih]

theorem lookupMap_setMap_other {α : Type} (m : List (String × α))
    (k k' : String) (v : α) (h : k' ≠ k) :
    lookupMap (setMap m k v) k' = lookupMap m k' := by
  have hne : ¬ k = k' := fun he => h he.symm
  induction m with
  | nil => simp [setMap, lookupMap, hne]
  | cons p rest ih =>
      by_cases hp : p.1 = k
      · simp only [setMap, if_pos hp, lookupMap, if_neg hne,
          if_neg (fun hc : p.1 = k' => hne (hp.symm.trans hc))]
      · simp only [setMap, if_neg hp, lookupMap]
        by_cases hp' : p.1 = k'
        · simp [hp']
        · simp [hp', ih]

/-- Marking keys `true` with a left fold preserves a `some true` binding. -/
theorem lookupMap_foldl_true_preserve {β : Type}
    (l : List (String × β)) (acc : List (String × Bool)) (k : String)
    (h : lookupMap acc k = some true) :
    lookupMap (l.foldl (fun acc p => setMap acc p.1 true) acc) k
      = some true := by
  induction l generalizing acc with
  | nil => exact h
  | cons q rest ih =>
      simp only [List.foldl_cons]
      apply ih
      by_cases hk : k = q.1
      · subst hk; exact lookupMap_setMap_self ..
      · rw [lookupMap_setMap_other _ _ _ _ hk]; exact h

/-- Every key of the folded list ends up bound to `true`. -/
theorem lookupMap_foldl_true_mem {β : Type}
    (l : List (String × β)) (acc : List (String × Bool))
    (p : String × β) (hp : p ∈ l) :
    lookupMap (l.foldl (fun acc q => setMap acc q.1 true) acc) p.1
      = some true := by
  induction l generalizing acc with
  | nil => cases hp
  | cons q rest ih =>
      simp only [List.foldl_cons]
      rcases List.mem_cons.mp hp with h | h
      · subst h
        exact lookupMap_foldl_true_preserve rest _ _
          (lookupMap_setMap_self ..)
      · exact ih _ h

/-! ## Basic facts about rule evaluation -/

/-- `runRules` only surfaces truthy (non-empty) messages. -/
theorem runRules_ne_some_empty (rules : List ValidationRule)
    (fieldValue : JSValue) (valuesToUse : ValueMap) :
    runRules rules fieldValue valuesToUse ≠ some "" := by
  induction rules with
  | nil => simp [runRules]
  | cons rule rest ih =>
      simp only [runRules]
      cases h : rule fieldValue valuesToUse with
      | none => exact ih
      | some e =>
          by_cases he : e = ""
          · simpa [he] using ih
          · simp [he]

/-- `validateField` never returns the empty string. -/
theorem validateField_ne_some_empty (cfg : FormConfig) (name : String)
    (valuesToUse : ValueMap) :
    validateField cfg name valuesToUse ≠ some "" := by
  rw [validateField]
  cases lookupMap cfg.validationRules name with
  | none => simp
  | some fieldRules => exact runRules_ne_some_empty _ _ _

/-- On `validateField` results, falsiness coincides with `none`. -/
theorem strTruthy_validateField_eq_false_iff (cfg : FormConfig)
    (name : String) (valuesToUse : ValueMap) :
    strTruthy (validateField cfg name valuesToUse) = false ↔
      validateField cfg name valuesToUse = none := by
  have hne := validateField_ne_some_empty cfg name valuesToUse
  cases h : validateField cfg name valuesToUse with
  | none => simp [strTruthy]
  | some e =>
      rw [h] at hne
      have he : e ≠ "" := fun hc => hne (by rw [hc])
      simp [strTruthy, he]

/-! ## Concrete fixtures used by witnesses and counterexamples -/

/-- A concrete configuration in the shape of the demo form. -/
def demoConfig : FormConfig :=
  { initialValues := [("name", .str ""), ("age", .num 0)],
    validationRules :=
      [("name", [required, minLength 2]),
       ("age", [required, FormValidation.min 18])] }

/-- Valid values together with a stale cached error for `name`. -/
def staleState : FormState :=
  { values := [("name", .str "Bo"), ("age", .num 21)],
    errors := [("name", some "stale it was"), ("age", none)],
    touched := [], isSubmitted := false }

/-! ## C1 -/

/-- C1: `isValid` is `true` iff every field with a configured rule list
has `validateField` return `none` against the current value map, and
`isValid` does not depend on the cached error map (nor on touched or the
submitted flag). -/
theorem isValid_recomputed_from_values (cfg : FormConfig) (s : FormState) :
    (isValid cfg s = true ↔
      ∀ p ∈ cfg.validationRules, validateField cfg p.1 s.values = none)
    ∧ (∀ (e : ErrorMap) (t : List (String × Bool)) (b : Bool),
        isValid cfg
            { values := s.values, errors := e, touched := t,
              isSubmitted := b }
          = isValid cfg s) := by
  constructor
  · rw [isValid, List.all_eq_true]
    constructor
    · intro h p hp
      have hb := h p hp
      rw [Bool.not_eq_true'] at hb
      exact (strTruthy_validateField_eq_false_iff cfg p.1 s.values).mp hb
    · intro h p hp
      rw [Bool.not_eq_true']
      exact (strTruthy_validateField_eq_false_iff cfg p.1 s.values).mpr
        (h p hp)
  · intro e t b
    rfl

/-- C1 witness: on the demo configuration with valid values, `isValid`
is `true` even though a stale error is cached for `name`. -/
theorem isValid_recomputed_from_values_witness :
    isValid demoConfig staleState = true :=
  ((isValid_recomputed_from_values demoConfig staleState).1).mpr (by decide)

/-! ## C2 -/

/-- C2: `handleSubmit` prevents the event's default, marks every ruled
field touched, sets the submitted flag, installs the `validateForm`
error map, and invokes the success callback with the current value map
exactly when `validateForm` returns `true`. -/
theorem handleSubmit_contract (cfg : FormConfig) (s : FormState) :
    (handleSubmit cfg s).defaultPrevented = true
    ∧ (∀ p ∈ cfg.validationRules,
        lookupMap (handleSubmit cfg s).state.touched p.1 = some true)
    ∧ (handleSubmit cfg s).state.isSubmitted = true
    ∧ (handleSubmit cfg s).state.errors = validateFormErrors cfg s.values
    ∧ ((handleSubmit cfg s).submittedValues = some s.values ↔
        (validateForm cfg s).2 = true)
    ∧ ((validateForm cfg s).2 = false →
        (handleSubmit cfg s).submittedValues = none) := by
  have hsub : (handleSubmit cfg s).submittedValues
      = if (validateForm cfg s).2 = true then some s.values else none := rfl
  refine ⟨rfl, ?_, rfl, rfl, ?_, ?_⟩
  · intro p hp
    exact lookupMap_foldl_true_mem cfg.validationRules [] p hp
  · rw [hsub]
    by_cases hb : (validateForm cfg s).2 = true
    · simp [hb]
    · simp [hb]
  · intro hb
    rw [hsub, hb]
    simp

/-- C2 witness: on the demo configuration with valid values the callback
receives the current value map. -/
theorem handleSubmit_contract_witness :
    (handleSubmit demoConfig staleState).submittedValues
      = some staleState.values :=
  ((handleSubmit_contract demoConfig staleState).2.2.2.2.1).mpr (by decide)

/-! ## C3 -/

/-- Valid values together with an error entry bound to `null` for
`name` (as `validateForm` produces for a passing field). -/
def nullEntryState : FormState :=
  { values := [("name", .str "Al"), ("age", .num 30)],
    errors := [("name", none)],
    touched := [], isSubmitted := false }

/-- C3 counterexample: with validate-on-change enabled and every rule of
`name` passing on the new value, a pre-existing error entry bound to
`null` survives `setValue` — the entry is not absent afterwards.  Only a
truthy (non-empty message) entry is deleted by the optimistic clear. -/
theorem setValue_null_entry_not_removed :
    validateField demoConfig "name"
        (setValue demoConfig nullEntryState "name" (.str "Bob")).values = none
    ∧ lookupMap (setValue demoConfig nullEntryState "name" (.str "Bob")).errors
        "name" = some none
    ∧ lookupMap (setValue demoConfig nullEntryState "name" (.str "Bob")).errors
        "name" ≠ none := by
  refine ⟨rfl, rfl, by decide⟩

/-- C3 amended: with validate-on-change enabled, `setValue` overwrites
the value; the error entry is deleted only when it currently holds a
non-empty message; re-validation against the updated snapshot reinstates
a failing result, while on success the error map is exactly the
optimistically cleared one — a pre-existing `null` (or empty-string)
entry persists rather than becoming absent. -/
theorem setValue_change_validation (cfg : FormConfig) (s : FormState)
    (name : String) (value : JSValue)
    (hc : cfg.validateOnChange = true) :
    (setValue cfg s name value).values = setMap s.values name value
    ∧ (∀ e, validateField cfg name (setMap s.values name value) = some e →
        (setValue cfg s name value).errors
          = setMap
              (if errTruthy (lookupMap s.errors name) then
                removeMap s.errors name
              else s.errors)
              name (some e))
    ∧ (validateField cfg name (setMap s.values name value) = none →
        (setValue cfg s name value).errors
          = if errTruthy (lookupMap s.errors name) then
              removeMap s.errors name
            else s.errors) := by
  refine ⟨rfl, ?_, ?_⟩
  · intro e he
    have hne : e ≠ "" := by
      intro h0
      exact validateField_ne_some_empty cfg name _ (h0 ▸ he)
    have hr : ∃ fieldRules, lookupMap cfg.validationRules name
        = some fieldRules := by
      cases hl : lookupMap cfg.validationRules name with
      | none => rw [validateField, hl] at he; cases he
      | some fieldRules => exact ⟨fieldRules, rfl⟩
    obtain ⟨fieldRules, hr⟩ := hr
    simp only [setValue, hc, if_true, hr, he, hne, ite_not]
    simp [hne]
  · intro he
    cases hl : lookupMap cfg.validationRules name with
    | none => simp only [setValue, hc, if_true, hl]
    | some fieldRules => simp only [setValue, hc, if_true, hl, he]

/-- C3 witness: a failing new value reinstates the freshly computed
message after the stale entry for the field was cleared. -/
theorem setValue_change_validation_witness :
    (setValue demoConfig staleState "name" (.str "J")).errors
      = [("age", none), ("name", some "Must be at least 2 characters")] :=
  (setValue_change_validation demoConfig staleState "name" (.str "J")
      rfl).2.1 "Must be at least 2 characters" (by decide)

/-! ## C4 -/

/-- C4 counterexample: `minLength(2)` on an empty value (empty string or
`undefined`) does fail — the empty value is coerced to `''`, whose length
`0` is below the bound, so the empty case is not delegated to `required`. -/
theorem minLength_fails_on_empty :
    minLength 2 none (.str "") [] = some "Must be at least 2 characters"
    ∧ minLength 2 none .undefined [] = some "Must be at least 2 characters"
    ∧ minLength 2 none .null [] = some "Must be at least 2 characters" := by
  refine ⟨rfl, rfl, rfl⟩

/-- C4 amended: on an empty value (empty string, absent/`undefined`,
`null`), `maxLength(bound)` returns `none` for every non-negative bound,
but `minLength(bound)` returns its error whenever the bound is positive:
the coerced string is `''` with length `0`. -/
theorem lengthRules_on_empty_value (b : Int) (msg : Option String)
    (v : JSValue) (snapshot : ValueMap)
    (hv : v = .str "" ∨ v = .null ∨ v = .undefined) :
    (0 < b →
      minLength b msg v snapshot
        = some (messageOr msg
            ("Must be at least " ++ toString b ++ " characters")))
    ∧ (b ≤ 0 → minLength b msg v snapshot = none)
    ∧ (0 ≤ b → maxLength b msg v snapshot = none)
    ∧ (b < 0 →
      maxLength b msg v snapshot
        = some (messageOr msg
            ("Must be at most " ++ toString b ++ " characters"))) := by
  have hs : stringOrEmpty v = "" := by
    rcases hv with h | h | h <;> subst h <;> rfl
  refine ⟨?_, ?_, ?_, ?_⟩ <;> intro hb <;>
    simp [minLength, maxLength, hs] <;> omega

/-- C4 witness: at bound `2` the empty string fails `minLength` and at
bound `5` it passes `maxLength`. -/
theorem lengthRules_on_empty_value_witness :
    minLength 2 none (.str "") [] = some "Must be at least 2 characters"
    ∧ maxLength 5 none (.str "") [] = none := by
  refine ⟨?_, ?_⟩
  · have h := (lengthRules_on_empty_value 2 none (.str "") [] (Or.inl rfl)).1
      (by decide)
    simpa using h
  · exact (lengthRules_on_empty_value 5 none (.str "") [] (Or.inl rfl)).2.2.1
      (by decide)

/-! ## C5 -/

/-- C5 (code bug): `strongPassword` called with a custom message returns
that message even when all five conditions hold — the final
`return message || null` reports success as a string, violating the
uniform success-is-none contract.  With the default (absent) message the
same input yields `none`. -/
theorem strongPassword_custom_message_leaks_on_success :
    strongPassword (some "Custom error") (.str "Abcdefg1!") []
      = some "Custom error"
    ∧ strongPassword none (.str "Abcdefg1!") [] = none
    ∧ required "req" (.str "Abcdefg1!") [] = none := by
  refine ⟨rfl, rfl, rfl⟩

/-! ## C6 -/

/-- A state whose `name` value validates but whose cached error entry is
a stale message. -/
def blurStaleState : FormState :=
  { values := [("name", .str "Ann"), ("age", .num 44)],
    errors := [("name", some "stale message")],
    touched := [], isSubmitted := false }

/-- C6 counterexample: with validate-on-blur enabled and `validateField`
returning `none`, `handleBlur` does not write that result — the stale
error entry survives, so the entry does not equal the freshly computed
result. -/
theorem handleBlur_keeps_stale_error :
    validateField demoConfig "name" blurStaleState.values = none
    ∧ lookupMap (handleBlur demoConfig blurStaleState "name").errors "name"
        = some (some "stale message")
    ∧ lookupMap (handleBlur demoConfig blurStaleState "name").touched "name"
        = some true := by
  refine ⟨rfl, rfl, rfl⟩

/-- C6 amended: `handleBlur` always marks the field touched and never
changes the values; when validate-on-blur is enabled it writes the
freshly computed result into the error map only when that result is an
error message — a `none` result leaves the error map untouched (so a
stale entry persists); when the toggle is off the error map is never
written. -/
theorem handleBlur_contract (cfg : FormConfig) (s : FormState)
    (name : String) :
    lookupMap (handleBlur cfg s name).touched name = some true
    ∧ (handleBlur cfg s name).values = s.values
    ∧ (cfg.validateOnBlur = true →
        ∀ e, validateField cfg name s.values = some e →
          (handleBlur cfg s name).errors = setMap s.errors name (some e))
    ∧ (cfg.validateOnBlur = true →
        validateField cfg name s.values = none →
          (handleBlur cfg s name).errors = s.errors)
    ∧ (cfg.validateOnBlur = false →
        (handleBlur cfg s name).errors = s.errors) := by
  have htouch : ∀ s' : FormState, s' = handleBlur cfg s name →
      s'.touched = setMap s.touched name true := by
    intro s' hs'
    subst hs'
    rw [handleBlur]
    cases cfg.validateOnBlur with
    | false => rfl
    | true =>
        cases validateField cfg name s.values with
        | none => rfl
        | some e =>
            by_cases he : e = "" <;> simp [he, setTouched]
  refine ⟨?_, ?_, ?_, ?_, ?_⟩
  · rw [htouch _ rfl]
    exact lookupMap_setMap_self ..
  · rw [handleBlur]
    cases cfg.validateOnBlur with
    | false => rfl
    | true =>
        cases validateField cfg name s.values with
        | none => rfl
        | some e => by_cases he : e = "" <;> simp [he, setTouched]
  · intro hblur e he
    have hne : e ≠ "" := by
      intro h0
      exact validateField_ne_some_empty cfg name s.values (h0 ▸ he)
    simp only [handleBlur, hblur, if_true, he, hne, setTouched]
    simp [hne]
  · intro hblur he
    simp only [handleBlur, hblur, if_true, he]
    rfl
  · intro hblur
    simp only [handleBlur, hblur]
    rfl

/-- C6 witness: a failing blur writes the freshly computed message. -/
theorem handleBlur_contract_witness :
    (handleBlur demoConfig
        { values := [("name", .str "")], errors := [], touched := [],
          isSubmitted := false } "name").errors
      = [("name", some "This field is required")] :=
  (handleBlur_contract demoConfig
      { values := [("name", .str "")], errors := [], touched := [],
        isSubmitted := false } "name").2.2.1 rfl
    "This field is required" (by decide)

/-! ## C7 -/

/-- A configuration whose recorded initial values are the falsy `0` and
`false`. -/
def zeroInitConfig : FormConfig :=
  { initialValues := [("count", .num 0), ("flag", .bool false)],
    validationRules := [] }

/-- A state in which both fields were edited away from their initial
values. -/
def editedState : FormState :=
  { values := [("count", .num 7), ("flag", .bool true)],
    errors := [("count", some "server says no")],
    touched := [("count", true)], isSubmitted := true }

/-- C7 counterexample: with recorded initial values `0` and `false`,
`resetField` sets the field to the empty string instead — the
`initialValues[name] || ''` fallback hits every falsy initial value. -/
theorem resetField_zero_initial_becomes_empty :
    lookupMap zeroInitConfig.initialValues "count" = some (.num 0)
    ∧ lookupMap (resetField zeroInitConfig editedState "count").values
        "count" = some (.str "")
    ∧ lookupMap zeroInitConfig.initialValues "flag" = some (.bool false)
    ∧ lookupMap (resetField zeroInitConfig editedState "flag").values
        "flag" = some (.str "") := by
  refine ⟨rfl, rfl, rfl, rfl⟩

/-- C7 amended: `resetField` restores the recorded initial value only
when that value is truthy; a falsy initial value (absent, `''`, `0`,
`false`, `null`) is replaced by the empty string; the error entry is set
to `null` and the touched entry to `false`; the submitted flag is
untouched. -/
theorem resetField_contract (cfg : FormConfig) (s : FormState)
    (name : String) :
    lookupMap (resetField cfg s name).values name
      = some (if (getValue cfg.initialValues name).truthy then
                getValue cfg.initialValues name
              else .str "")
    ∧ lookupMap (resetField cfg s name).errors name = some none
    ∧ lookupMap (resetField cfg s name).touched name = some false
    ∧ (resetField cfg s name).isSubmitted = s.isSubmitted := by
  refine ⟨lookupMap_setMap_self .., lookupMap_setMap_self ..,
    lookupMap_setMap_self .., rfl⟩

/-! ## C8 -/

/-- C8: after any sequence of operations (any reachable state `s`),
`resetForm` produces exactly the state of a freshly constructed
controller: the originally supplied initial values, empty error and
touched maps, and a cleared submitted flag. -/
theorem resetForm_eq_fresh_instance (cfg : FormConfig) (s : FormState) :
    resetForm cfg s = initialState cfg
    ∧ (resetForm cfg s).values = cfg.initialValues
    ∧ (resetForm cfg s).errors = []
    ∧ (resetForm cfg s).touched = []
    ∧ (resetForm cfg s).isSubmitted = false :=
  ⟨rfl, rfl, rfl, rfl, rfl⟩

/-! ## C9 -/

/-- Modelled from the spec's wording for C9: the five strong-password
conditions with their messages, in the fixed order of the source. -/
def strongConditions (s : String) : List (Bool × String) :=
  [(hasMinLength s, "Password must be at least 8 characters long"),
   (hasUpperCase s, "Password must contain at least one uppercase letter"),
   (hasLowerCase s, "Password must contain at least one lowercase letter"),
   (hasNumber s, "Password must contain at least one number"),
   (hasSpecialChar s, "Password must contain at least one special character")]

/-- Modelled from the spec's wording for C9: the message of the first
unmet condition, `none` when all hold. -/
def firstUnmetMessage (s : String) : Option String :=
  ((strongConditions s).find? (fun c => !c.1)).map (fun c => c.2)

/-- C9: with the default message, `strongPassword` returns the message
of the first unmet condition in the fixed order and `none` when all five
hold; an empty value passes; `"alllowercase1!"` fails specifically on
the uppercase check and `"Abcdefg1!"` passes. -/
theorem strongPassword_default_first_unmet (v : JSValue)
    (snapshot : ValueMap) :
    (strongPassword none v snapshot
      = if stringOrEmpty v = "" then none
        else firstUnmetMessage (stringOrEmpty v))
    ∧ strongPassword none (.str "alllowercase1!") []
        = some "Password must contain at least one uppercase letter"
    ∧ strongPassword none (.str "Abcdefg1!") [] = none
    ∧ strongPassword none (.str "") [] = none := by
  refine ⟨?_, by decide, by decide, rfl⟩
  by_cases hs : stringOrEmpty v = ""
  · simp [strongPassword, hs]
  · simp only [strongPassword, firstUnmetMessage, strongConditions,
      List.find?, if_neg hs]
    cases h1 : hasMinLength (stringOrEmpty v) <;>
    cases h2 : hasUpperCase (stringOrEmpty v) <;>
    cases h3 : hasLowerCase (stringOrEmpty v) <;>
    cases h4 : hasNumber (stringOrEmpty v) <;>
    cases h5 : hasSpecialChar (stringOrEmpty v) <;>
      simp [h1, h2, h3, h4, h5]

/-! ## C10 -/

/-- C10: for every positive bound, `min(bound)` rejects the empty
string: `Number('')` coerces to `0`, a valid number below the bound —
the empty case is not delegated to `required`. -/
theorem min_rejects_empty_string (b : Int) (msg : Option String)
    (snapshot : ValueMap) (hb : 0 < b) :
    JSValue.toNumber (.str "") = some 0
    ∧ FormValidation.min b msg (.str "") snapshot
        = some (messageOr msg ("Must be at least " ++ toString b)) := by
  refine ⟨rfl, ?_⟩
  show (if (0 : Int) < b then
          some (messageOr msg ("Must be at least " ++ toString b))
        else none)
      = some (messageOr msg ("Must be at least " ++ toString b))
  rw [if_pos hb]

/-- C10 witness: `min(18)` on the empty string reports the default
message. -/
theorem min_rejects_empty_string_witness :
    FormValidation.min 18 none (.str "") [] = some "Must be at least 18" :=
  (min_rejects_empty_string 18 none [] (by decide)).2

end FormValidation
